import Mathlib

/-!
Shallow embedding of `src/utils/globalStateManager.ts` (the `GlobalStateManager`
class of the Overleaf-Workshop extension) together with theorems about its
registry, session, catalog, entity, compile and socket operations.

Modelling conventions:
* The persistent registry (`context.globalState` under the key
  `overleaf-servers`) is an association list from server name to
  `ServerPersist`; `getServer` models the JS property read `persists[name]`
  and `setServer` models the in-place mutation of the entry object followed
  by `globalState.update`.
* The remote client `BaseAPI` is a record of response functions; every
  response is a `ResponseSchema` tagged record, exactly the fields the
  source inspects (`type`, `message`, `identity`, `projects`, `content`,
  `entity`, `compile`).
* Each operation returns `Option (OpOut α)`: the outer `none` models the
  TypeError thrown when `persists[name]` is `undefined` and the code
  dereferences `server.login`; `OpOut` carries the returned value, the
  registry after the operation, and an `Effects` record listing the remote
  calls issued in order, whether `globalState.update` was invoked, and the
  messages passed to `vscode.window.showErrorMessage`.
* `auth` has TS type `{[key:string]:string}`, so each key may be absent at
  runtime; it is modelled with `Option String` fields, and the JS truthiness
  test `auth.cookies ? … : …` is `truthy` (absent or empty string is falsy).
-/

namespace OverleafWorkshop

/-- Opaque authentication handle (cookie jar / token bundle) from `api/base`. -/
structure Identity where
  cookies : String
  deriving DecidableEq, Repr

/-- Member metadata from `provider/remoteFileSystemProvider`, opaque here. -/
structure MemberEntity where
  id : String
  deriving DecidableEq, Repr

/-- The access-level literals `'owner' | 'collaborator' | 'readOnly'`. -/
inductive AccessLevel
  | owner
  | collaborator
  | readOnly
  deriving DecidableEq, Repr

/-- `ProjectPersist` from the source, field for field. -/
structure ProjectPersist where
  id : String
  userId : String
  name : String
  lastUpdated : Option String := none
  lastUpdatedBy : Option MemberEntity := none
  source : Option AccessLevel := none
  accessLevel : AccessLevel
  archived : Option Bool := none
  trashed : Option Bool := none
  deriving DecidableEq, Repr

/-- The anonymous `login` record inside `ServerPersist`. -/
structure LoginData where
  userId : String
  username : Option String
  identity : Identity
  projects : Option (List ProjectPersist) := none
  deriving DecidableEq, Repr

/-- `ServerPersist` from the source; `login` absent means logged out. -/
structure ServerPersist where
  name : String
  url : String
  login : Option LoginData := none
  deriving DecidableEq, Repr

/-- `ServerPersistMap`: the registry blob, keyed by server name. -/
abbrev ServerPersistMap := List (String × ServerPersist)

/-- The JS property read `persists[name]` (undefined becomes `none`). -/
def getServer (persists : ServerPersistMap) (name : String) : Option ServerPersist :=
  (persists.find? (fun p => p.1 == name)).map (·.2)

/-- In-place mutation of the entry named `name` inside the registry object. -/
def setServer (persists : ServerPersistMap) (name : String) (s : ServerPersist) :
    ServerPersistMap :=
  persists.map (fun p => if p.1 == name then (p.1, s) else p)

/-- A created/updated file-tree entity returned by upload/addFolder, opaque. -/
structure EntityData where
  id : String
  name : String
  deriving DecidableEq, Repr

/-- The payload of a compile response, opaque. -/
structure CompileData where
  status : String
  deriving DecidableEq, Repr

/-- `ResponseSchema` from `api/base`: a tagged result; `type = "success"`
marks success, and exactly the optional payload fields the manager inspects. -/
structure ResponseSchema where
  type : String
  message : Option String := none
  identity : Option Identity := none
  projects : Option (List ProjectPersist) := none
  content : Option (List Nat) := none
  entity : Option EntityData := none
  compile : Option CompileData := none
  deriving DecidableEq, Repr

/-- `FileType` from the filesystem provider, passed through verbatim. -/
abbrev FileType := String

/-- The remote client: one response function per operation the manager uses. -/
structure BaseAPI where
  cookiesLogin : String → ResponseSchema
  passportLogin : Option String → Option String → ResponseSchema
  logout : Identity → ResponseSchema
  getProjectsJson : Identity → ResponseSchema
  userProjectsJson : Identity → ResponseSchema
  getFile : Identity → String → String → ResponseSchema
  uploadFile : Identity → String → String → String → List Nat → ResponseSchema
  addFolder : Identity → String → String → String → ResponseSchema
  deleteEntity : Identity → String → FileType → String → ResponseSchema
  renameEntity : Identity → String → String → String → String → ResponseSchema
  moveEntity : Identity → String → String → String → String → ResponseSchema
  deleteAuxFiles : Identity → String → ResponseSchema
  compile : Identity → String → ResponseSchema

/-- One remote invocation, recorded with its arguments, for call traces. -/
inductive RemoteCall
  | cookiesLogin (cookies : String)
  | passportLogin (email password : Option String)
  | logout (identity : Identity)
  | getProjectsJson (identity : Identity)
  | userProjectsJson (identity : Identity)
  | getFile (identity : Identity) (projectId fileId : String)
  | uploadFile (identity : Identity) (projectId parentFolderId fileName : String)
      (content : List Nat)
  | addFolder (identity : Identity) (projectId folderName parentFolderId : String)
  | deleteEntity (identity : Identity) (projectId : String) (fileType : FileType)
      (fileId : String)
  | renameEntity (identity : Identity) (projectId entityType entityId newName : String)
  | moveEntity (identity : Identity) (projectId entityType entityId newParentId : String)
  | deleteAuxFiles (identity : Identity) (projectId : String)
  | compile (identity : Identity) (projectId : String)
  deriving DecidableEq, Repr

/-- Observable side effects of one operation: the remote calls in issue
order, whether `globalState.update` ran, and the surfaced error messages. -/
structure Effects where
  calls : List RemoteCall := []
  persisted : Bool := false
  errors : List String := []
  deriving DecidableEq, Repr

/-- Result of one operation: returned value, resulting registry, effects. -/
structure OpOut (α : Type) where
  value : α
  state : ServerPersistMap
  eff : Effects
  deriving DecidableEq, Repr

/-- The `auth` dictionary passed to `loginServer`; keys may be absent. -/
structure AuthData where
  cookies : Option String := none
  email : Option String := none
  password : Option String := none
  deriving DecidableEq, Repr

/-- JS truthiness of an optional string: absent and `""` are falsy. -/
def truthy : Option String → Bool
  | none => false
  | some s => s != ""

/-- The single remote call of `loginServer`:
`auth.cookies ? api.cookiesLogin(auth.cookies) : api.passportLogin(auth.email, auth.password)`. -/
def loginCall (api : BaseAPI) (auth : AuthData) : ResponseSchema × RemoteCall :=
  match auth.cookies with
  | some c =>
      if c != "" then (api.cookiesLogin c, RemoteCall.cookiesLogin c)
      else (api.passportLogin auth.email auth.password,
            RemoteCall.passportLogin auth.email auth.password)
  | none => (api.passportLogin auth.email auth.password,
             RemoteCall.passportLogin auth.email auth.password)

/-- `GlobalStateManager.addServer`. -/
def addServer (persists : ServerPersistMap) (name url : String) : OpOut Bool :=
  match getServer persists name with
  | none =>
      ⟨true, persists ++ [(name, { name := name, url := url, login := none })],
       ⟨[], true, []⟩⟩
  | some _ => ⟨false, persists, ⟨[], false, []⟩⟩

/-- `GlobalStateManager.removeServer`. -/
def removeServer (persists : ServerPersistMap) (name : String) : OpOut Bool :=
  match getServer persists name with
  | some _ =>
      ⟨true, persists.filter (fun p => p.1 != name), ⟨[], true, []⟩⟩
  | none => ⟨false, persists, ⟨[], false, []⟩⟩

/-- `GlobalStateManager.loginServer`. -/
def loginServer (persists : ServerPersistMap) (api : BaseAPI) (name : String)
    (auth : AuthData) : Option (OpOut Bool) :=
  match getServer persists name with
  | none => none
  | some server =>
    match server.login with
    | some _ => some ⟨false, persists, ⟨[], false, []⟩⟩
    | none =>
      let rc := loginCall api auth
      if rc.1.type == "success" then
        match rc.1.identity, rc.1.message with
        | some ident, some uid =>
            let server1 : ServerPersist :=
              { server with
                  login := some { userId := uid, username := auth.email,
                                  identity := ident, projects := none } }
            some ⟨true, setServer persists name server1, ⟨[rc.2], true, []⟩⟩
        | _, _ => some ⟨false, persists, ⟨[rc.2], false, rc.1.message.toList⟩⟩
      else some ⟨false, persists, ⟨[rc.2], false, rc.1.message.toList⟩⟩

/-- `GlobalStateManager.logoutServer`; the response of `api.logout` is awaited
and discarded, so it does not occur in the result. -/
def logoutServer (persists : ServerPersistMap) (api : BaseAPI) (name : String) :
    Option (OpOut Bool) :=
  match getServer persists name with
  | none => none
  | some server =>
    match server.login with
    | some login =>
        let _ := api.logout login.identity
        some ⟨true, setServer persists name { server with login := none },
              ⟨[RemoteCall.logout login.identity], true, []⟩⟩
    | none => some ⟨false, persists, ⟨[], false, []⟩⟩

/-- The `userId` stamping loop of `fetchServerProjects`. -/
def stampProjects (userId : String) (ps : List ProjectPersist) : List ProjectPersist :=
  ps.map (fun p => { p with userId := userId })

/-- `GlobalStateManager.fetchServerProjects`. -/
def fetchServerProjects (persists : ServerPersistMap) (api : BaseAPI) (name : String) :
    Option (OpOut (List ProjectPersist)) :=
  match getServer persists name with
  | none => none
  | some server =>
    match server.login with
    | none => some ⟨[], persists, ⟨[], false, []⟩⟩
    | some login =>
      let res1 := api.getProjectsJson login.identity
      let rc :=
        if res1.type != "success" then
          (api.userProjectsJson login.identity,
           [RemoteCall.getProjectsJson login.identity,
            RemoteCall.userProjectsJson login.identity])
        else (res1, [RemoteCall.getProjectsJson login.identity])
      if rc.1.type == "success" then
        match rc.1.projects with
        | some projects =>
            let stamped := stampProjects login.userId projects
            let server1 : ServerPersist :=
              { server with login := some { login with projects := some stamped } }
            some ⟨stamped, setServer persists name server1, ⟨rc.2, true, []⟩⟩
        | none => some ⟨[], persists, ⟨rc.2, false, rc.1.message.toList⟩⟩
      else some ⟨[], persists, ⟨rc.2, false, rc.1.message.toList⟩⟩

/-- `GlobalStateManager.authenticate`: the outer `none` is the thrown
TypeError on a missing entry, the inner `none` the rejected promise. -/
def authenticate (persists : ServerPersistMap) (name : String) :
    Option (Option Identity) :=
  match getServer persists name with
  | none => none
  | some server =>
    match server.login with
    | some login => some (some login.identity)
    | none => some none

/-- `GlobalStateManager.getProjectFile`; the value is the returned byte array. -/
def getProjectFile (persists : ServerPersistMap) (api : BaseAPI)
    (name projectId fileId : String) : Option (OpOut (List Nat)) :=
  match getServer persists name with
  | none => none
  | some server =>
    match server.login with
    | none => some ⟨[], persists, ⟨[], false, []⟩⟩
    | some login =>
      let res := api.getFile login.identity projectId fileId
      let call := RemoteCall.getFile login.identity projectId fileId
      if res.type == "success" then
        match res.content with
        | some content => some ⟨content, persists, ⟨[call], false, []⟩⟩
        | none => some ⟨[], persists, ⟨[call], false, []⟩⟩
      else some ⟨[], persists, ⟨[call], false, []⟩⟩

/-- `GlobalStateManager.uploadProjectFile`; the value `none` is the implicit
`undefined` return. -/
def uploadProjectFile (persists : ServerPersistMap) (api : BaseAPI)
    (name projectId parentFolderId fileName : String) (content : List Nat) :
    Option (OpOut (Option EntityData)) :=
  match getServer persists name with
  | none => none
  | some server =>
    match server.login with
    | none => some ⟨none, persists, ⟨[], false, []⟩⟩
    | some login =>
      let res := api.uploadFile login.identity projectId parentFolderId fileName content
      let call := RemoteCall.uploadFile login.identity projectId parentFolderId
        fileName content
      if res.type == "success" then
        match res.entity with
        | some e => some ⟨some e, persists, ⟨[call], false, []⟩⟩
        | none => some ⟨none, persists, ⟨[call], false, res.message.toList⟩⟩
      else some ⟨none, persists, ⟨[call], false, res.message.toList⟩⟩

/-- `GlobalStateManager.addProjectFolder`. -/
def addProjectFolder (persists : ServerPersistMap) (api : BaseAPI)
    (name projectId folderName parentFolderId : String) :
    Option (OpOut (Option EntityData)) :=
  match getServer persists name with
  | none => none
  | some server =>
    match server.login with
    | none => some ⟨none, persists, ⟨[], false, []⟩⟩
    | some login =>
      let res := api.addFolder login.identity projectId folderName parentFolderId
      let call := RemoteCall.addFolder login.identity projectId folderName parentFolderId
      if res.type == "success" then
        match res.entity with
        | some e => some ⟨some e, persists, ⟨[call], false, []⟩⟩
        | none => some ⟨none, persists, ⟨[call], false, res.message.toList⟩⟩
      else some ⟨none, persists, ⟨[call], false, res.message.toList⟩⟩

/-- `GlobalStateManager.deleteProjectEntity`. -/
def deleteProjectEntity (persists : ServerPersistMap) (api : BaseAPI)
    (name projectId : String) (fileType : FileType) (fileId : String) :
    Option (OpOut Bool) :=
  match getServer persists name with
  | none => none
  | some server =>
    match server.login with
    | none => some ⟨false, persists, ⟨[], false, []⟩⟩
    | some login =>
      let res := api.deleteEntity login.identity projectId fileType fileId
      let call := RemoteCall.deleteEntity login.identity projectId fileType fileId
      if res.type == "success" then some ⟨true, persists, ⟨[call], false, []⟩⟩
      else some ⟨false, persists, ⟨[call], false, res.message.toList⟩⟩

/-- `GlobalStateManager.renameProjectEntity`. -/
def renameProjectEntity (persists : ServerPersistMap) (api : BaseAPI)
    (name projectId entityType entityId newName : String) : Option (OpOut Bool) :=
  match getServer persists name with
  | none => none
  | some server =>
    match server.login with
    | none => some ⟨false, persists, ⟨[], false, []⟩⟩
    | some login =>
      let res := api.renameEntity login.identity projectId entityType entityId newName
      let call := RemoteCall.renameEntity login.identity projectId entityType
        entityId newName
      if res.type == "success" then some ⟨true, persists, ⟨[call], false, []⟩⟩
      else some ⟨false, persists, ⟨[call], false, res.message.toList⟩⟩

/-- `GlobalStateManager.moveProjectEntity`. -/
def moveProjectEntity (persists : ServerPersistMap) (api : BaseAPI)
    (name projectId entityType entityId newParentId : String) : Option (OpOut Bool) :=
  match getServer persists name with
  | none => none
  | some server =>
    match server.login with
    | none => some ⟨false, persists, ⟨[], false, []⟩⟩
    | some login =>
      let res := api.moveEntity login.identity projectId entityType entityId newParentId
      let call := RemoteCall.moveEntity login.identity projectId entityType
        entityId newParentId
      if res.type == "success" then some ⟨true, persists, ⟨[call], false, []⟩⟩
      else some ⟨false, persists, ⟨[call], false, res.message.toList⟩⟩

/-- `GlobalStateManager.compileProjectEntity`; the `deleteAuxFiles` response
is awaited and discarded, so the result is independent of it. -/
def compileProjectEntity (persists : ServerPersistMap) (api : BaseAPI)
    (name projectId : String) (needCacheClearFirst : Bool) :
    Option (OpOut (Option CompileData)) :=
  match getServer persists name with
  | none => none
  | some server =>
    match server.login with
    | none => some ⟨none, persists, ⟨[], false, []⟩⟩
    | some login =>
      let pre :=
        if needCacheClearFirst then
          [RemoteCall.deleteAuxFiles login.identity projectId]
        else []
      let res := api.compile login.identity projectId
      let calls := pre ++ [RemoteCall.compile login.identity projectId]
      if res.type == "success" then some ⟨res.compile, persists, ⟨calls, false, []⟩⟩
      else some ⟨none, persists, ⟨calls, false, res.message.toList⟩⟩

/-- The pair built by `initSocketIOAPI`: a fresh remote-client handle and a
realtime channel, both bound to the server url and stored identity. -/
structure SocketHandle where
  url : String
  identity : Identity
  deriving DecidableEq, Repr

/-- `GlobalStateManager.initSocketIOAPI`: the outer `none` is the thrown
TypeError on a missing entry, the inner `none` the implicit `undefined`. -/
def initSocketIOAPI (persists : ServerPersistMap) (name : String) :
    Option (Option SocketHandle) :=
  match getServer persists name with
  | none => none
  | some server =>
    match server.login with
    | some login => some (some ⟨server.url, login.identity⟩)
    | none => some none

/-! ### Concrete fixtures used to instantiate the theorems -/

/-- A concrete identity handle. -/
def identA : Identity := ⟨"cookieA"⟩

/-- A concrete raw project as a listing call would return it. -/
def projRaw1 : ProjectPersist :=
  { id := "p1", userId := "owner1", name := "ProjOne",
    accessLevel := AccessLevel.owner }

/-- A second concrete raw project. -/
def projRaw2 : ProjectPersist :=
  { id := "p2", userId := "owner2", name := "ProjTwo",
    accessLevel := AccessLevel.collaborator }

/-- A project as previously cached on a session. -/
def projCached : ProjectPersist :=
  { id := "p0", userId := "u1", name := "Cached",
    accessLevel := AccessLevel.readOnly }

/-- A concrete active session. -/
def loginA : LoginData :=
  { userId := "u1", username := some "ada@lab.example", identity := identA }

/-- A concrete active session that carries a cached project list. -/
def loginCached : LoginData :=
  { userId := "u1", username := some "ada@lab.example", identity := identA,
    projects := some [projCached] }

/-- A logged-out server entry. -/
def serverOut : ServerPersist := { name := "lab", url := "https://lab.example" }

/-- A logged-in server entry. -/
def serverIn : ServerPersist :=
  { name := "lab", url := "https://lab.example", login := some loginA }

/-- A logged-in server entry with a cached project list. -/
def serverCached : ServerPersist :=
  { name := "lab", url := "https://lab.example", login := some loginCached }

/-- Registry holding only the logged-out entry. -/
def regOut : ServerPersistMap := [("lab", serverOut)]

/-- Registry holding only the logged-in entry. -/
def regIn : ServerPersistMap := [("lab", serverIn)]

/-- Registry holding only the logged-in entry with a cached project list. -/
def regCached : ServerPersistMap := [("lab", serverCached)]

/-- Email/password credentials (no cookie handle). -/
def authEmail : AuthData :=
  { email := some "ada@lab.example", password := some "pw" }

/-- A remote client whose calls succeed (while `userProjectsJson` and
`deleteAuxFiles` fail, exercising fallback-independence). -/
def apiOk : BaseAPI :=
  { cookiesLogin := fun _ =>
      { type := "success", message := some "u7", identity := some ⟨"ckX"⟩ }
  , passportLogin := fun _ _ =>
      { type := "success", message := some "u1", identity := some identA }
  , logout := fun _ => { type := "success" }
  , getProjectsJson := fun _ =>
      { type := "success", projects := some [projRaw1, projRaw2] }
  , userProjectsJson := fun _ => { type := "error", message := some "no fallback" }
  , getFile := fun _ _ _ => { type := "success", content := some [104, 105] }
  , uploadFile := fun _ _ _ _ _ =>
      { type := "success", entity := some ⟨"e1", "f.txt"⟩ }
  , addFolder := fun _ _ _ _ => { type := "success", entity := some ⟨"e2", "dir"⟩ }
  , deleteEntity := fun _ _ _ _ => { type := "success" }
  , renameEntity := fun _ _ _ _ _ => { type := "success" }
  , moveEntity := fun _ _ _ _ _ => { type := "success" }
  , deleteAuxFiles := fun _ _ => { type := "error", message := some "aux failed" }
  , compile := fun _ _ => { type := "success", compile := some ⟨"ok"⟩ } }

/-- A remote client whose primary listing call fails and whose fallback
listing call succeeds. -/
def apiPrimaryFail : BaseAPI :=
  { apiOk with
      getProjectsJson := fun _ => { type := "error", message := some "primary down" }
      userProjectsJson := fun _ =>
        { type := "success", projects := some [projRaw1, projRaw2] } }

/-- A remote client whose primary and fallback listing calls both fail. -/
def apiBothFail : BaseAPI :=
  { apiOk with
      getProjectsJson := fun _ => { type := "error", message := some "primary down" }
      userProjectsJson := fun _ => { type := "error", message := some "fallback down" } }

/-! ### Theorems for the claims -/

/-- C1: for a `LoggedOut` entry, when the single remote login call (cookie
login iff a nonempty cookie handle is supplied, email/password login
otherwise) returns a success result carrying an identity and a userId
message, `loginServer` stores a session with the returned userId, the
supplied email as username and the returned identity, persists the
registry, and returns true. -/
theorem loginServer_success_spec
    (persists : ServerPersistMap) (api : BaseAPI) (name : String) (auth : AuthData)
    (server : ServerPersist) (ident : Identity) (uid : String)
    (hs : getServer persists name = some server)
    (hout : server.login = none)
    (htype : (loginCall api auth).1.type = "success")
    (hid : (loginCall api auth).1.identity = some ident)
    (hmsg : (loginCall api auth).1.message = some uid) :
    loginServer persists api name auth =
      some ⟨true,
        setServer persists name
          { server with
              login := some { userId := uid, username := auth.email,
                              identity := ident, projects := none } },
        ⟨[(loginCall api auth).2], true, []⟩⟩ ∧
    (∀ c, auth.cookies = some c → c ≠ "" →
        (loginCall api auth).2 = RemoteCall.cookiesLogin c) ∧
    (truthy auth.cookies = false →
        (loginCall api auth).2 =
          RemoteCall.passportLogin auth.email auth.password) := by
  refine ⟨?_, ?_, ?_⟩
  · simp [loginServer, hs, hout, htype, hid, hmsg]
  · intro c hc hne
    simp [loginCall, hc, hne]
  · intro ht
    rcases hck : auth.cookies with _ | c
    · simp [loginCall, hck]
    · rw [hck] at ht
      simp only [truthy] at ht
      have hc : c = "" := by simpa using ht
      simp [loginCall, hck, hc]

/-- C1 witness: email/password login against the logged-out entry. -/
theorem loginServer_success_witness :
    loginServer regOut apiOk "lab" authEmail =
      some ⟨true,
        setServer regOut "lab"
          { serverOut with
              login := some { userId := "u1", username := authEmail.email,
                              identity := identA, projects := none } },
        ⟨[(loginCall apiOk authEmail).2], true, []⟩⟩ :=
  (loginServer_success_spec regOut apiOk "lab" authEmail serverOut identA "u1"
    rfl rfl rfl rfl rfl).1

/-- C6: `loginServer` on an entry that is already `LoggedIn` returns false,
issues no remote call, surfaces nothing, and leaves the registry (hence the
existing session, its identity and cached projects) unchanged. -/
theorem loginServer_alreadyLoggedIn_spec
    (persists : ServerPersistMap) (api : BaseAPI) (name : String) (auth : AuthData)
    (server : ServerPersist) (login : LoginData)
    (hs : getServer persists name = some server)
    (hin : server.login = some login) :
    loginServer persists api name auth = some ⟨false, persists, ⟨[], false, []⟩⟩ := by
  simp [loginServer, hs, hin]

/-- C6 witness: login attempt against the already-logged-in entry. -/
theorem loginServer_alreadyLoggedIn_witness :
    loginServer regIn apiOk "lab" authEmail =
      some ⟨false, regIn, ⟨[], false, []⟩⟩ :=
  loginServer_alreadyLoggedIn_spec regIn apiOk "lab" authEmail serverIn loginA rfl rfl

/-- C4: `logoutServer` on a `LoggedIn` entry issues the remote logout with
the stored identity, then clears the session and persists, returning true
(the conclusion does not depend on `api.logout`'s response, so this holds
regardless of the remote outcome); on a `LoggedOut` entry it returns false
with no remote call. -/
theorem logoutServer_spec
    (persists : ServerPersistMap) (api : BaseAPI) (name : String)
    (server : ServerPersist)
    (hs : getServer persists name = some server) :
    (server.login = none →
        logoutServer persists api name = some ⟨false, persists, ⟨[], false, []⟩⟩) ∧
    (∀ login, server.login = some login →
        logoutServer persists api name =
          some ⟨true, setServer persists name { server with login := none },
                ⟨[RemoteCall.logout login.identity], true, []⟩⟩) := by
  constructor
  · intro hout
    simp [logoutServer, hs, hout]
  · intro login hin
    simp [logoutServer, hs, hin]

/-- C4 witness: logout of the logged-in entry clears the session even though
only the local state is consulted, plus the logged-out case returning false. -/
theorem logoutServer_witness :
    logoutServer regIn apiOk "lab" =
      some ⟨true, setServer regIn "lab" { serverIn with login := none },
            ⟨[RemoteCall.logout identA], true, []⟩⟩ ∧
    logoutServer regOut apiOk "lab" = some ⟨false, regOut, ⟨[], false, []⟩⟩ :=
  ⟨(logoutServer_spec regIn apiOk "lab" serverIn rfl).2 loginA rfl,
   (logoutServer_spec regOut apiOk "lab" serverOut rfl).1 rfl⟩

/-- C2: on a `LoggedIn` entry, `fetchServerProjects` tries the primary
listing call and falls back to the user-projects listing call only when the
primary reports non-success; whichever path succeeds with a project list,
every returned project's `userId` is overwritten with the session's
`userId`, the session's cached projects are replaced by that stamped list,
the registry is persisted, and the stamped list is returned. -/
theorem fetchServerProjects_success_spec
    (persists : ServerPersistMap) (api : BaseAPI) (name : String)
    (server : ServerPersist) (login : LoginData)
    (hs : getServer persists name = some server)
    (hin : server.login = some login) :
    (∀ ps, (api.getProjectsJson login.identity).type = "success" →
        (api.getProjectsJson login.identity).projects = some ps →
        fetchServerProjects persists api name =
          some ⟨stampProjects login.userId ps,
            setServer persists name
              { server with
                  login := some { login with
                    projects := some (stampProjects login.userId ps) } },
            ⟨[RemoteCall.getProjectsJson login.identity], true, []⟩⟩) ∧
    (∀ ps, (api.getProjectsJson login.identity).type ≠ "success" →
        (api.userProjectsJson login.identity).type = "success" →
        (api.userProjectsJson login.identity).projects = some ps →
        fetchServerProjects persists api name =
          some ⟨stampProjects login.userId ps,
            setServer persists name
              { server with
                  login := some { login with
                    projects := some (stampProjects login.userId ps) } },
            ⟨[RemoteCall.getProjectsJson login.identity,
              RemoteCall.userProjectsJson login.identity], true, []⟩⟩) := by
  constructor
  · intro ps h1 h2
    simp [fetchServerProjects, hs, hin, h1, h2]
  · intro ps h1 h2 h3
    simp [fetchServerProjects, hs, hin, h1, h2, h3]

/-- C2 witness: the primary listing call fails and the fallback succeeds;
the returned projects are the fallback's payload with every `userId`
overwritten to the session's `userId`. -/
theorem fetchServerProjects_success_witness :
    fetchServerProjects regIn apiPrimaryFail "lab" =
      some ⟨stampProjects "u1" [projRaw1, projRaw2],
        setServer regIn "lab"
          { serverIn with
              login := some { loginA with
                projects := some (stampProjects "u1" [projRaw1, projRaw2]) } },
        ⟨[RemoteCall.getProjectsJson identA,
          RemoteCall.userProjectsJson identA], true, []⟩⟩ :=
  (fetchServerProjects_success_spec regIn apiPrimaryFail "lab" serverIn loginA
    rfl rfl).2 [projRaw1, projRaw2] (by decide) rfl rfl

/-- C3: on a `LoggedIn` entry, when the primary and the fallback listing
calls both report non-success, `fetchServerProjects` surfaces exactly the
fallback's message (when present), returns the empty sequence, does not
persist, and leaves the registry — hence the previously cached projects —
unchanged. -/
theorem fetchServerProjects_bothFail_spec
    (persists : ServerPersistMap) (api : BaseAPI) (name : String)
    (server : ServerPersist) (login : LoginData)
    (hs : getServer persists name = some server)
    (hin : server.login = some login)
    (h1 : (api.getProjectsJson login.identity).type ≠ "success")
    (h2 : (api.userProjectsJson login.identity).type ≠ "success") :
    fetchServerProjects persists api name =
      some ⟨[], persists,
        ⟨[RemoteCall.getProjectsJson login.identity,
          RemoteCall.userProjectsJson login.identity], false,
         (api.userProjectsJson login.identity).message.toList⟩⟩ := by
  simp [fetchServerProjects, hs, hin, h1, h2]

/-- C3 witness: both listing calls fail against a session holding a cached
project list; only the fallback's message is surfaced and the registry,
cached list included, is untouched. -/
theorem fetchServerProjects_bothFail_witness :
    fetchServerProjects regCached apiBothFail "lab" =
      some ⟨[], regCached,
        ⟨[RemoteCall.getProjectsJson identA,
          RemoteCall.userProjectsJson identA], false, ["fallback down"]⟩⟩ :=
  fetchServerProjects_bothFail_spec regCached apiBothFail "lab" serverCached
    loginCached rfl rfl (by decide) (by decide)

/-- C7: on a `LoggedIn` entry, `compileProjectEntity` with
`needCacheClearFirst` set issues the `deleteAuxFiles` call strictly before
the `compile` call, whatever `api` responds to either (the trace is the
same for every `api`); with it unset, no `deleteAuxFiles` call is made. -/
theorem compileProjectEntity_order_spec
    (persists : ServerPersistMap) (api : BaseAPI) (name projectId : String)
    (server : ServerPersist) (login : LoginData)
    (hs : getServer persists name = some server)
    (hin : server.login = some login) :
    (compileProjectEntity persists api name projectId true).map (fun o => o.eff.calls) =
      some [RemoteCall.deleteAuxFiles login.identity projectId,
            RemoteCall.compile login.identity projectId] ∧
    (compileProjectEntity persists api name projectId false).map (fun o => o.eff.calls) =
      some [RemoteCall.compile login.identity projectId] := by
  constructor <;>
  · by_cases hres : (api.compile login.identity projectId).type = "success" <;>
      simp [compileProjectEntity, hs, hin, hres]

/-- C7 witness: the cleanup call precedes the compile call even though the
concrete client's `deleteAuxFiles` reports failure. -/
theorem compileProjectEntity_order_witness :
    (compileProjectEntity regIn apiOk "lab" "p1" true).map (fun o => o.eff.calls) =
      some [RemoteCall.deleteAuxFiles identA "p1", RemoteCall.compile identA "p1"] :=
  (compileProjectEntity_order_spec regIn apiOk "lab" "p1" serverIn loginA rfl rfl).1

/-- C10: `getProjectFile` returns the empty byte array when the entry is
logged out, when the remote `getFile` call is not a success, or when the
success result carries no content; it surfaces no error message in any
case; and only on a success result with content does it return that
content. -/
theorem getProjectFile_spec
    (persists : ServerPersistMap) (api : BaseAPI) (name projectId fileId : String)
    (server : ServerPersist)
    (hs : getServer persists name = some server) :
    (server.login = none →
        getProjectFile persists api name projectId fileId =
          some ⟨[], persists, ⟨[], false, []⟩⟩) ∧
    (∀ login, server.login = some login →
        (api.getFile login.identity projectId fileId).type ≠ "success" →
        getProjectFile persists api name projectId fileId =
          some ⟨[], persists,
            ⟨[RemoteCall.getFile login.identity projectId fileId], false, []⟩⟩) ∧
    (∀ login, server.login = some login →
        (api.getFile login.identity projectId fileId).content = none →
        getProjectFile persists api name projectId fileId =
          some ⟨[], persists,
            ⟨[RemoteCall.getFile login.identity projectId fileId], false, []⟩⟩) ∧
    (∀ login content, server.login = some login →
        (api.getFile login.identity projectId fileId).type = "success" →
        (api.getFile login.identity projectId fileId).content = some content →
        getProjectFile persists api name projectId fileId =
          some ⟨content, persists,
            ⟨[RemoteCall.getFile login.identity projectId fileId], false, []⟩⟩) := by
  refine ⟨?_, ?_, ?_, ?_⟩
  · intro hout
    simp [getProjectFile, hs, hout]
  · intro login hin ht
    simp [getProjectFile, hs, hin, ht]
  · intro login hin hc
    by_cases ht : (api.getFile login.identity projectId fileId).type = "success"
    · simp [getProjectFile, hs, hin, ht, hc]
    · simp [getProjectFile, hs, hin, ht]
  · intro login content hin ht hc
    simp [getProjectFile, hs, hin, ht, hc]

/-- C10 witness: a success result with content is returned verbatim, with
no surfaced message. -/
theorem getProjectFile_witness :
    getProjectFile regIn apiOk "lab" "p1" "f1" =
      some ⟨[104, 105], regIn,
        ⟨[RemoteCall.getFile identA "p1" "f1"], false, []⟩⟩ :=
  (getProjectFile_spec regIn apiOk "lab" "p1" "f1" serverIn rfl).2.2.2 loginA
    [104, 105] rfl rfl rfl

/-- C5: on a `LoggedOut` entry, every entity operation returns its failure
sentinel (`none` for upload and addFolder, `false` for delete, rename and
move), issues no remote call, surfaces nothing, does not persist, and
leaves the registry unchanged. -/
theorem entityOps_loggedOut_spec
    (persists : ServerPersistMap) (api : BaseAPI)
    (name projectId parentFolderId fileName folderName : String)
    (content : List Nat) (fileType : FileType)
    (entityType entityId newName newParentId fileId : String)
    (server : ServerPersist)
    (hs : getServer persists name = some server)
    (hout : server.login = none) :
    uploadProjectFile persists api name projectId parentFolderId fileName content =
      some ⟨none, persists, ⟨[], false, []⟩⟩ ∧
    addProjectFolder persists api name projectId folderName parentFolderId =
      some ⟨none, persists, ⟨[], false, []⟩⟩ ∧
    deleteProjectEntity persists api name projectId fileType fileId =
      some ⟨false, persists, ⟨[], false, []⟩⟩ ∧
    renameProjectEntity persists api name projectId entityType entityId newName =
      some ⟨false, persists, ⟨[], false, []⟩⟩ ∧
    moveProjectEntity persists api name projectId entityType entityId newParentId =
      some ⟨false, persists, ⟨[], false, []⟩⟩ := by
  refine ⟨?_, ?_, ?_, ?_, ?_⟩ <;>
    simp [uploadProjectFile, addProjectFolder, deleteProjectEntity,
      renameProjectEntity, moveProjectEntity, hs, hout]

/-- C5 witness: all five entity operations against the logged-out entry. -/
theorem entityOps_loggedOut_witness :
    uploadProjectFile regOut apiOk "lab" "p1" "root" "f.txt" [104] =
      some ⟨none, regOut, ⟨[], false, []⟩⟩ ∧
    addProjectFolder regOut apiOk "lab" "p1" "dir" "root" =
      some ⟨none, regOut, ⟨[], false, []⟩⟩ ∧
    deleteProjectEntity regOut apiOk "lab" "p1" "file" "f1" =
      some ⟨false, regOut, ⟨[], false, []⟩⟩ ∧
    renameProjectEntity regOut apiOk "lab" "p1" "file" "f1" "g.txt" =
      some ⟨false, regOut, ⟨[], false, []⟩⟩ ∧
    moveProjectEntity regOut apiOk "lab" "p1" "file" "f1" "root2" =
      some ⟨false, regOut, ⟨[], false, []⟩⟩ :=
  entityOps_loggedOut_spec regOut apiOk "lab" "p1" "root" "f.txt" "dir" [104]
    "file" "file" "f1" "g.txt" "root2" "f1" serverOut rfl rfl

/-- Appending a fresh entry makes it retrievable under its name. -/
theorem getServer_append_self (persists : ServerPersistMap) (name : String)
    (s : ServerPersist) (h : getServer persists name = none) :
    getServer (persists ++ [(name, s)]) name = some s := by
  induction persists with
  | nil => simp [getServer]
  | cons p ps ih =>
      by_cases hp : p.1 == name
      · exfalso
        simp [getServer, List.find?_cons, hp] at h
      · simp only [getServer, List.cons_append, List.find?_cons, hp] at h ⊢
        exact ih h

/-- C8: `addServer` with an unregistered name appends a sessionless entry,
persists, returns true, and the new entry is retrievable under the name;
with an already-registered name it returns false, does not persist, and
leaves the registry unchanged. -/
theorem addServer_spec (persists : ServerPersistMap) (name url : String) :
    (getServer persists name = none →
        addServer persists name url =
          ⟨true, persists ++ [(name, { name := name, url := url, login := none })],
           ⟨[], true, []⟩⟩ ∧
        getServer (persists ++ [(name, { name := name, url := url, login := none })])
            name =
          some { name := name, url := url, login := none }) ∧
    (∀ s, getServer persists name = some s →
        addServer persists name url = ⟨false, persists, ⟨[], false, []⟩⟩) := by
  constructor
  · intro h
    exact ⟨by simp [addServer, h], getServer_append_self persists name _ h⟩
  · intro s h
    simp [addServer, h]

/-- C8 witness: adding the name to the empty registry succeeds; adding it
again to a registry that holds it fails without mutation. -/
theorem addServer_witness :
    addServer [] "lab" "https://lab.example" =
      ⟨true, [("lab", { name := "lab", url := "https://lab.example", login := none })],
       ⟨[], true, []⟩⟩ ∧
    addServer regOut "lab" "https://other.example" =
      ⟨false, regOut, ⟨[], false, []⟩⟩ :=
  ⟨((addServer_spec [] "lab" "https://lab.example").1 rfl).1,
   (addServer_spec regOut "lab" "https://other.example").2 serverOut rfl⟩

/-- C9: for a name absent from the registry, every name-taking operation
other than list/add/remove dereferences the missing entry and throws (the
outer `none`, modelling the TypeError) instead of returning its documented
failure sentinel. -/
theorem missingServer_throws_spec
    (persists : ServerPersistMap) (api : BaseAPI) (name : String) (auth : AuthData)
    (projectId fileId parentFolderId fileName folderName : String)
    (fileType : FileType) (entityType entityId newName newParentId : String)
    (content : List Nat) (needCacheClearFirst : Bool)
    (h : getServer persists name = none) :
    loginServer persists api name auth = none ∧
    logoutServer persists api name = none ∧
    fetchServerProjects persists api name = none ∧
    authenticate persists name = none ∧
    getProjectFile persists api name projectId fileId = none ∧
    uploadProjectFile persists api name projectId parentFolderId fileName content =
      none ∧
    addProjectFolder persists api name projectId folderName parentFolderId = none ∧
    deleteProjectEntity persists api name projectId fileType fileId = none ∧
    renameProjectEntity persists api name projectId entityType entityId newName =
      none ∧
    moveProjectEntity persists api name projectId entityType entityId newParentId =
      none ∧
    compileProjectEntity persists api name projectId needCacheClearFirst = none ∧
    initSocketIOAPI persists name = none := by
  refine ⟨?_, ?_, ?_, ?_, ?_, ?_, ?_, ?_, ?_, ?_, ?_, ?_⟩ <;>
    simp [loginServer, logoutServer, fetchServerProjects, authenticate,
      getProjectFile, uploadProjectFile, addProjectFolder, deleteProjectEntity,
      renameProjectEntity, moveProjectEntity, compileProjectEntity,
      initSocketIOAPI, h]

/-- C9 witness: every listed operation throws on the empty registry. -/
theorem missingServer_throws_witness :
    loginServer [] apiOk "ghost" authEmail = none ∧
    logoutServer [] apiOk "ghost" = none ∧
    fetchServerProjects [] apiOk "ghost" = none ∧
    authenticate [] "ghost" = none ∧
    getProjectFile [] apiOk "ghost" "p1" "f1" = none ∧
    uploadProjectFile [] apiOk "ghost" "p1" "root" "f.txt" [104] = none ∧
    addProjectFolder [] apiOk "ghost" "p1" "dir" "root" = none ∧
    deleteProjectEntity [] apiOk "ghost" "p1" "file" "f1" = none ∧
    renameProjectEntity [] apiOk "ghost" "p1" "file" "f1" "g.txt" = none ∧
    moveProjectEntity [] apiOk "ghost" "p1" "file" "f1" "root2" = none ∧
    compileProjectEntity [] apiOk "ghost" "p1" true = none ∧
    initSocketIOAPI [] "ghost" = none :=
  missingServer_throws_spec [] apiOk "ghost" authEmail "p1" "f1" "root" "f.txt"
    "dir" "file" "file" "f1" "g.txt" "root2" [104] true rfl

end OverleafWorkshop
